import Mathlib

/-!
Verification of the national-park-sites explorer (proj2_nps.py).

The program scrapes nps.gov pages and queries the MapQuest radius API, with a
read-through/write-through cache persisted in a single JSON file (cache.json).
We embed the cache layer, the key builder, the detail-page scraper and the
nearby-places mapping as pure Lean functions.  Effectful Python code is modelled
by explicit state passing: the state of the backing cache file is threaded
through each call, the network is an oracle function (`none` models a raised
exception), and each call additionally returns the list of observable I/O
events (file reads, network requests, file writes) it performed, in order.
-/

namespace NPS

/-- An HTTP response as the code observes it: a `requests.Response` exposing a
status code and the body text.  The code never inspects `status`. -/
structure HttpResponse where
  status : Nat
  text : String
deriving DecidableEq, Repr

/-- Observable I/O events of one call, in the order they happen:
reading the cache file, issuing a network GET to a url, writing the cache file. -/
inductive Event where
  | fileRead : Event
  | netGet : String → Event
  | fileWrite : Event
deriving DecidableEq, Repr

/-- The state of the backing cache.json file, as seen by `use_cache`'s
`try: open / read / json.loads` block: the file may be missing, unreadable
(e.g. a permission error), present but rejected by `json.loads`, or valid JSON
deserializing to the mapping `m`.  `V` is the type of cached values: response
text (`String`) for page fetches, a parsed JSON value for API fetches. -/
inductive CacheFile (V : Type) where
  | missing : CacheFile V
  | unreadable : CacheFile V
  | malformed : CacheFile V
  | valid : List (String × V) → CacheFile V
deriving DecidableEq, Repr

/-- `use_cache` (proj2_nps.py, lines 169-188): open cache.json, read it and
`json.loads` the contents; the bare `except:` turns every failure (missing
file, unreadable file, malformed JSON) into the empty dictionary.  Python
dictionaries are modelled as association lists in insertion order. -/
def use_cache {V : Type} : CacheFile V → List (String × V)
  | CacheFile.valid m => m
  | _ => []

/-- `save_cache` (lines 191-206): `json.dumps` the dictionary and overwrite
cache.json, leaving the file holding valid JSON for exactly that mapping. -/
def save_cache {V : Type} (cache_dict : List (String × V)) : CacheFile V :=
  CacheFile.valid cache_dict

/-- Python dictionary assignment `d[k] = v`: replace the value of an existing
key in place, otherwise append the new pair at the end. -/
def dictInsert {V : Type} : List (String × V) → String → V → List (String × V)
  | [], k, v => [(k, v)]
  | p :: ps, k, v => if p.1 = k then (k, v) :: ps else p :: dictInsert ps k v

/-- `construct_key` (lines 209-228): render each parameter pair as
`"name_value"` (values are already rendered to their Python `str` form),
sort the rendered tokens (the Python local `lis`), and join them with `"_"`
after `baseurl ++ "_"`. -/
def construct_key (baseurl : String) (dictionary : List (String × String)) : String :=
  baseurl ++ "_" ++ String.intercalate "_"
    (List.mergeSort (dictionary.map (fun p => p.1 ++ "_" ++ p.2)))

/-- `make_url_request_using_cache` (lines 145-166).  The call re-loads the
cache file via `use_cache`, returns the stored text on a hit, and otherwise
performs `requests.get` (the oracle `net`; `none` models a raised network
exception, which propagates before anything is stored), stores the response
body under the url, persists via `save_cache` and returns `CACHE_DICT[url]`
(the final lookup mirrors the Python subscript; its `none` branch is dead). -/
def make_url_request_using_cache (net : String → Option HttpResponse) (url : String)
    (file : CacheFile String) : Except Unit String × CacheFile String × List Event :=
  let cache_dict := use_cache file
  match cache_dict.lookup url with
  | some v => (Except.ok v, file, [Event.fileRead])
  | none =>
    match net url with
    | none => (Except.error (), file, [Event.fileRead, Event.netGet url])
    | some response =>
      let cache_dict2 := dictInsert cache_dict url response.text
      match cache_dict2.lookup url with
      | some v =>
        (Except.ok v, save_cache cache_dict2, [Event.fileRead, Event.netGet url, Event.fileWrite])
      | none =>
        (Except.error (), save_cache cache_dict2,
          [Event.fileRead, Event.netGet url, Event.fileWrite])

/-- A `NationalSite` (lines 13-42): `name` is the only required constructor
argument; `category`, `address`, `zipcode` and `phone` default to Python
`None`, modelled as `none`. -/
structure NationalSite where
  name : String
  category : Option String := none
  address : Option String := none
  zipcode : Option String := none
  phone : Option String := none
deriving DecidableEq, Repr

/-- Python `s.replace(c, "")` for a single-character pattern: every
occurrence of the character is removed. -/
def removeChar (c : Char) (s : String) : String :=
  String.mk (s.data.filter (fun x => x ≠ c))

/-- `NationalSite.info` (lines 41-42): the concatenation
`name + " (" + category + ")" + ": " + address + " " + zipcode`.
Concatenating a Python `str` with `None` raises `TypeError`, so the result is
`none` unless `category`, `address` and `zipcode` are all strings. -/
def NationalSite.info (s : NationalSite) : Option String :=
  match s.category, s.address, s.zipcode with
  | some c, some a, some z => some (s.name ++ " (" ++ c ++ ")" ++ ": " ++ a ++ " " ++ z)
  | _, _, _ => none

/-- The parts of a detail page that `get_site_instance` reads.  Each field is
the text of one markup element lookup: `none` when the element is absent
(`soup.find` returned `None`), `some s` when it is present with text `s`.
The title field stands for the composed lookup `title.find('a')`. -/
structure DetailPage where
  heroTitleAnchorText : Option String
  heroDesignationSpanText : Option String
  addressLocalityText : Option String
  addressRegionText : Option String
  postalCodeText : Option String
  telText : Option String
deriving DecidableEq, Repr

/-- `get_site_instance` (lines 70-92): each field is read as
`soup.find(...).text`; calling `.text` on `None` raises `AttributeError`, so
the absence of any one of the six elements makes the whole call fail
(`none`).  When all are present, address is `locality ++ ", " ++ region`,
the postal code has its spaces removed and the phone its newlines removed. -/
def get_site_instance (page : DetailPage) : Option NationalSite :=
  match page.heroTitleAnchorText, page.heroDesignationSpanText, page.addressLocalityText,
      page.addressRegionText, page.postalCodeText, page.telText with
  | some name, some category, some locality, some region, some zipc, some tel =>
    some (NationalSite.mk name (some category) (some (locality ++ ", " ++ region))
      (some (removeChar ' ' zipc)) (some (removeChar '\n' tel)))
  | _, _, _, _, _, _ => none

/-- The `"fields"` object of one raw MapQuest search result, restricted to the
keys `print_nearby_places` reads. -/
structure RawPlace where
  name : String
  group_sic_code_name_ext : String
  address : String
  city : String
deriving DecidableEq, Repr

/-- The parsed JSON body of a MapQuest radius response, restricted to the
`"searchResults"` key that `print_nearby_places` reads. -/
structure PlacesResponse where
  searchResults : List RawPlace
deriving DecidableEq, Repr

/-- One mapped output line of `print_nearby_places`. -/
structure PlaceResult where
  name : String
  category : String
  address : String
  city : String
deriving DecidableEq, Repr

/-- Python `str()` applied to a field that is either a string or `None`. -/
def pyStr : Option String → String
  | some s => s
  | none => "None"

/-- The MapQuest endpoint url used by `get_nearby_places` (line 133). -/
def radius_base_url : String := "http://www.mapquestapi.com/search/v2/radius"

/-- The fixed parameter dictionary of `get_nearby_places` (line 132), with
every value rendered to its Python `str` form (`str(10.0) = "10.0"`,
`str(10) = "10"`), in insertion order. -/
def radiusParams (apiKey : String) (site_object : NationalSite) : List (String × String) :=
  [("key", apiKey), ("origin", pyStr site_object.zipcode), ("radius", "10.0"),
   ("maxMatches", "10"), ("ambiguities", "ignore"), ("outFormat", "json")]

/-- `get_nearby_places` (lines 119-142): build the parameter dictionary, make
the cache key with `construct_key`, re-load the cache file, and on a miss call
`requests.get(...).json()` (the oracle `net`; `none` models an exception from
the request or from JSON decoding, which propagates before anything is
stored), store the parsed value under the key, and persist. -/
def get_nearby_places (apiKey : String)
    (net : String → List (String × String) → Option PlacesResponse)
    (site_object : NationalSite) (file : CacheFile PlacesResponse) :
    Except Unit PlacesResponse × CacheFile PlacesResponse × List Event :=
  let dictionary := radiusParams apiKey site_object
  let request_key := construct_key radius_base_url dictionary
  let cache_dict := use_cache file
  match cache_dict.lookup request_key with
  | some v => (Except.ok v, file, [Event.fileRead])
  | none =>
    match net radius_base_url dictionary with
    | none => (Except.error (), file, [Event.fileRead, Event.netGet radius_base_url])
    | some response =>
      let cache_dict2 := dictInsert cache_dict request_key response
      match cache_dict2.lookup request_key with
      | some v =>
        (Except.ok v, save_cache cache_dict2,
          [Event.fileRead, Event.netGet radius_base_url, Event.fileWrite])
      | none =>
        (Except.error (), save_cache cache_dict2,
          [Event.fileRead, Event.netGet radius_base_url, Event.fileWrite])

/-- The field mapping of one raw result inside `print_nearby_places`
(lines 286-299): each of category, address and city is passed through when
non-empty and replaced by its literal placeholder when it is `""`. -/
def mapPlace (near_fields : RawPlace) : PlaceResult :=
  PlaceResult.mk near_fields.name
    (if near_fields.group_sic_code_name_ext ≠ "" then near_fields.group_sic_code_name_ext
     else "no category")
    (if near_fields.address ≠ "" then near_fields.address else "no address")
    (if near_fields.city ≠ "" then near_fields.city else "no city")

/-- The printing loop of `print_nearby_places` (lines 284-303): iterate over
the raw results, map each one, increment the counter after emitting, and
break as soon as the counter reaches 10. -/
def printLoop (i : Nat) : List RawPlace → List PlaceResult
  | [] => []
  | near_park :: rest =>
    mapPlace near_park :: (if i + 1 == 10 then [] else printLoop (i + 1) rest)

/-- The ordered sequence of place lines `print_nearby_places` emits for a
parsed API response. -/
def print_nearby_places (near_place_list : PlacesResponse) : List PlaceResult :=
  printLoop 0 near_place_list.searchResults

/-! ## Helper lemmas -/

theorem lookup_dictInsert_self {V : Type} (m : List (String × V)) (k : String) (v : V) :
    (dictInsert m k v).lookup k = some v := by
  induction m with
  | nil => simp [dictInsert, List.lookup]
  | cons p ps ih =>
    obtain ⟨a, b⟩ := p
    by_cases h : a = k
    · simp [dictInsert, h, List.lookup]
    · have hba : (k == a) = false := by
        rw [beq_eq_false_iff_ne]
        exact Ne.symm h
      simpa [dictInsert, h, List.lookup, hba] using ih

theorem printLoop_eq_take_map (l : List RawPlace) :
    ∀ i : Nat, i < 10 → printLoop i l = (l.take (10 - i)).map mapPlace := by
  induction l with
  | nil => intro i _; simp [printLoop]
  | cons p ps ih =>
    intro i hi
    by_cases h : i + 1 = 10
    · have h9 : i = 9 := by omega
      subst h9
      simp [printLoop]
    · have h1 : i + 1 < 10 := by omega
      have hb : ((i + 1 == 10) : Bool) = false := by
        simpa using h
      rw [show (10 : Nat) - i = (10 - (i + 1)) + 1 from by omega]
      simp [printLoop, hb, ih (i + 1) h1]

theorem make_url_hit (net : String → Option HttpResponse) (url : String)
    (file : CacheFile String) (v : String) (h : (use_cache file).lookup url = some v) :
    make_url_request_using_cache net url file = (Except.ok v, file, [Event.fileRead]) := by
  unfold make_url_request_using_cache
  simp [h]

theorem make_url_miss_ok (net : String → Option HttpResponse) (url : String)
    (file : CacheFile String) (resp : HttpResponse)
    (hmiss : (use_cache file).lookup url = none) (hnet : net url = some resp) :
    make_url_request_using_cache net url file
      = (Except.ok resp.text, save_cache (dictInsert (use_cache file) url resp.text),
         [Event.fileRead, Event.netGet url, Event.fileWrite]) := by
  unfold make_url_request_using_cache
  simp [hmiss, hnet, lookup_dictInsert_self]

theorem make_url_miss_fail (net : String → Option HttpResponse) (url : String)
    (file : CacheFile String)
    (hmiss : (use_cache file).lookup url = none) (hnet : net url = none) :
    make_url_request_using_cache net url file
      = (Except.error (), file, [Event.fileRead, Event.netGet url]) := by
  unfold make_url_request_using_cache
  simp [hmiss, hnet]

theorem get_nearby_hit (apiKey : String)
    (net : String → List (String × String) → Option PlacesResponse)
    (site : NationalSite) (file : CacheFile PlacesResponse) (v : PlacesResponse)
    (h : (use_cache file).lookup (construct_key radius_base_url (radiusParams apiKey site))
      = some v) :
    get_nearby_places apiKey net site file = (Except.ok v, file, [Event.fileRead]) := by
  unfold get_nearby_places
  simp [h]

theorem get_nearby_miss_ok (apiKey : String)
    (net : String → List (String × String) → Option PlacesResponse)
    (site : NationalSite) (file : CacheFile PlacesResponse) (resp : PlacesResponse)
    (hmiss : (use_cache file).lookup (construct_key radius_base_url (radiusParams apiKey site))
      = none)
    (hnet : net radius_base_url (radiusParams apiKey site) = some resp) :
    get_nearby_places apiKey net site file
      = (Except.ok resp,
         save_cache (dictInsert (use_cache file)
           (construct_key radius_base_url (radiusParams apiKey site)) resp),
         [Event.fileRead, Event.netGet radius_base_url, Event.fileWrite]) := by
  unfold get_nearby_places
  simp [hmiss, hnet, lookup_dictInsert_self]

theorem get_nearby_miss_fail (apiKey : String)
    (net : String → List (String × String) → Option PlacesResponse)
    (site : NationalSite) (file : CacheFile PlacesResponse)
    (hmiss : (use_cache file).lookup (construct_key radius_base_url (radiusParams apiKey site))
      = none)
    (hnet : net radius_base_url (radiusParams apiKey site) = none) :
    get_nearby_places apiKey net site file
      = (Except.error (), file, [Event.fileRead, Event.netGet radius_base_url]) := by
  unfold get_nearby_places
  simp [hmiss, hnet]

theorem mergeSort_congr_of_perm {l la : List String} (h : l.Perm la) :
    List.mergeSort l = List.mergeSort la :=
  List.eq_of_perm_of_sorted
    (((List.mergeSort_perm l _).trans h).trans (List.mergeSort_perm la _).symm)
    (List.sorted_mergeSort' l) (List.sorted_mergeSort' la)

/-! ## Claim theorems -/

/-- C2: `construct_key` is invariant under any permutation of the parameter
mapping's insertion order: it renders each parameter as `"name_value"`, sorts
the rendered tokens, joins them with `"_"` and prepends `baseurl ++ "_"`, so
two insertion orders of the same mapping yield the identical key string. -/
theorem construct_key_perm_invariant (baseurl : String) (d da : List (String × String))
    (h : d.Perm da) : construct_key baseurl d = construct_key baseurl da := by
  unfold construct_key
  rw [mergeSort_congr_of_perm (h.map fun p => p.1 ++ "_" ++ p.2)]

/-- C2 witness: the two insertion orders of `{radius: 10.0, origin: "49931"}`
yield the same key. -/
theorem construct_key_perm_invariant_witness :
    construct_key "http://www.mapquestapi.com/search/v2/radius"
        [("radius", "10.0"), ("origin", "49931")]
      = construct_key "http://www.mapquestapi.com/search/v2/radius"
        [("origin", "49931"), ("radius", "10.0")] :=
  construct_key_perm_invariant "http://www.mapquestapi.com/search/v2/radius"
    [("radius", "10.0"), ("origin", "49931")] [("origin", "49931"), ("radius", "10.0")]
    (List.Perm.swap ("origin", "49931") ("radius", "10.0") [])

/-- C5: the nearby-places output is the upstream results in original order,
truncated to at most 10 entries: it equals the mapped 10-prefix of the raw
`searchResults`, and its length is `min n 10` — in particular 15 raw results
yield exactly 10 entries. -/
theorem nearby_places_truncation (near_place_list : PlacesResponse) :
    print_nearby_places near_place_list
      = (near_place_list.searchResults.take 10).map mapPlace
    ∧ (print_nearby_places near_place_list).length
      = min near_place_list.searchResults.length 10 := by
  have h := printLoop_eq_take_map near_place_list.searchResults 0 (by omega)
  constructor
  · simpa [print_nearby_places] using h
  · rw [print_nearby_places]
    rw [h]
    simp [List.length_take]
    omega

/-- C7: `use_cache` is total over every state of the backing file and never
propagates an error: a missing, unreadable or malformed file yields the empty
mapping, and a file holding a valid JSON object yields exactly that mapping. -/
theorem use_cache_never_fails :
    (∀ (V : Type) (f : CacheFile V),
      use_cache f = [] ∨ ∃ m, f = CacheFile.valid m ∧ use_cache f = m)
    ∧ use_cache (V := String) CacheFile.missing = []
    ∧ use_cache (V := String) CacheFile.unreadable = []
    ∧ use_cache (V := String) CacheFile.malformed = []
    ∧ ∀ m : List (String × String), use_cache (CacheFile.valid m) = m := by
  refine ⟨?_, rfl, rfl, rfl, fun m => rfl⟩
  intro V f
  cases f with
  | missing => exact Or.inl rfl
  | unreadable => exact Or.inl rfl
  | malformed => exact Or.inl rfl
  | valid m => exact Or.inr ⟨m, rfl, rfl⟩

/-- C8: in the mapping of a raw place result, each of category, address and
city becomes its literal placeholder when the upstream field is empty and is
passed through unchanged otherwise; the name always passes through; and every
emitted place line is the image of some raw upstream result. -/
theorem nearby_places_field_substitution (f : RawPlace) :
    ((f.group_sic_code_name_ext = "" → (mapPlace f).category = "no category")
      ∧ (f.group_sic_code_name_ext ≠ "" → (mapPlace f).category = f.group_sic_code_name_ext))
    ∧ ((f.address = "" → (mapPlace f).address = "no address")
      ∧ (f.address ≠ "" → (mapPlace f).address = f.address))
    ∧ ((f.city = "" → (mapPlace f).city = "no city")
      ∧ (f.city ≠ "" → (mapPlace f).city = f.city))
    ∧ (mapPlace f).name = f.name
    ∧ ∀ (resp : PlacesResponse), ∀ p ∈ print_nearby_places resp,
        ∃ g ∈ resp.searchResults, p = mapPlace g := by
  refine ⟨⟨fun h => by simp [mapPlace, h], fun h => by simp [mapPlace, h]⟩,
    ⟨fun h => by simp [mapPlace, h], fun h => by simp [mapPlace, h]⟩,
    ⟨fun h => by simp [mapPlace, h], fun h => by simp [mapPlace, h]⟩, rfl, ?_⟩
  intro resp p hp
  rw [print_nearby_places, printLoop_eq_take_map _ 0 (by omega)] at hp
  obtain ⟨g, hg, hpg⟩ := List.mem_map.mp hp
  exact ⟨g, List.mem_of_mem_take hg, hpg.symm⟩

/-- C8 witness: a raw result whose category, address and city are all empty
maps to the three placeholders. -/
theorem nearby_places_field_substitution_witness :
    (mapPlace (RawPlace.mk "Pizza Shop" "" "" "")).category = "no category"
    ∧ (mapPlace (RawPlace.mk "Pizza Shop" "" "" "")).address = "no address"
    ∧ (mapPlace (RawPlace.mk "Pizza Shop" "" "" "")).city = "no city" :=
  ⟨(nearby_places_field_substitution (RawPlace.mk "Pizza Shop" "" "" "")).1.1 rfl,
   (nearby_places_field_substitution (RawPlace.mk "Pizza Shop" "" "" "")).2.1.1 rfl,
   (nearby_places_field_substitution (RawPlace.mk "Pizza Shop" "" "" "")).2.2.1.1 rfl⟩

/-- C10: a `NationalSite` is constructible at the public interface with only a
name (the other four fields default to `None`), but `info` is partial: it
fails whenever category, address or zipcode is `None`, and succeeds exactly
when those three are strings, producing the documented concatenation. -/
theorem national_site_info_partiality :
    (∀ n : String, ({ name := n } : NationalSite) = NationalSite.mk n none none none none)
    ∧ (∀ s : NationalSite,
        s.category = none ∨ s.address = none ∨ s.zipcode = none → s.info = none)
    ∧ ∀ (n c a z : String) (p : Option String),
        (NationalSite.mk n (some c) (some a) (some z) p).info
          = some (n ++ " (" ++ c ++ ")" ++ ": " ++ a ++ " " ++ z) := by
  refine ⟨fun n => rfl, ?_, fun n c a z p => rfl⟩
  intro s h
  obtain ⟨n, c, a, z, p⟩ := s
  rcases h with h | h | h
  · subst h; cases a <;> cases z <;> rfl
  · subst h; cases c <;> cases z <;> rfl
  · subst h; cases c <;> cases a <;> rfl

/-- C10 witness: a site built with only a name has `info = none`. -/
theorem national_site_info_partiality_witness :
    (NationalSite.mk "Isle Royale" none none none none).info = none :=
  national_site_info_partiality.2.1 (NationalSite.mk "Isle Royale" none none none none)
    (Or.inl rfl)

/-- C3 counterexample: a detail page carrying every element except the phone
element makes `get_site_instance` fail (`soup.find(class_="tel")` is `None`
and `.text` raises `AttributeError`), instead of returning a record with
`phone = ""` as the claim states. -/
theorem get_site_instance_missing_phone_fails :
    get_site_instance
      (DetailPage.mk (some "Isle Royale") (some "National Park") (some "Houghton")
        (some "MI") (some "49931") none) = none := rfl

/-- C3 amended: `get_site_instance` requires every scraped element to be
present; when all elements are present, an optional element whose text is
empty yields the empty string for that field and the record is still built,
but the absence of the phone element (or any element) makes the call fail. -/
theorem get_site_instance_tolerates_empty_text (name cat loc reg zipc : String) :
    get_site_instance
      (DetailPage.mk (some name) (some cat) (some loc) (some reg) (some zipc) (some ""))
      = some (NationalSite.mk name (some cat) (some (loc ++ ", " ++ reg))
          (some (removeChar ' ' zipc)) (some ""))
    ∧ get_site_instance
      (DetailPage.mk (some name) (some cat) (some loc) (some reg) (some zipc) none)
      = none :=
  ⟨rfl, rfl⟩

/-- C1: from an empty cache, the first `make_url_request_using_cache` call on
`u` misses, performs exactly one network GET, stores the body under `u` and
persists exactly once; the second call hits, performs zero network I/O and
zero writes, leaves the file untouched, and returns the same value. -/
theorem fetchPage_idempotent (net : String → Option HttpResponse) (u : String)
    (file0 : CacheFile String) (resp : HttpResponse)
    (hempty : use_cache file0 = ([] : List (String × String)))
    (hnet : net u = some resp) :
    make_url_request_using_cache net u file0
      = (Except.ok resp.text, save_cache [(u, resp.text)],
         [Event.fileRead, Event.netGet u, Event.fileWrite])
    ∧ (make_url_request_using_cache net u file0).2.2.count (Event.netGet u) = 1
    ∧ (make_url_request_using_cache net u file0).2.2.count Event.fileWrite = 1
    ∧ (use_cache (save_cache [(u, resp.text)] : CacheFile String)).lookup u = some resp.text
    ∧ make_url_request_using_cache net u (save_cache [(u, resp.text)])
      = (Except.ok resp.text, save_cache [(u, resp.text)], [Event.fileRead])
    ∧ (make_url_request_using_cache net u (save_cache [(u, resp.text)])).2.2.count
        (Event.netGet u) = 0
    ∧ (make_url_request_using_cache net u (save_cache [(u, resp.text)])).2.2.count
        Event.fileWrite = 0 := by
  have hmiss : (use_cache file0).lookup u = none := by
    simp [hempty, List.lookup]
  have h1 := make_url_miss_ok net u file0 resp hmiss hnet
  rw [hempty] at h1
  have hd : dictInsert ([] : List (String × String)) u resp.text = [(u, resp.text)] := rfl
  rw [hd] at h1
  have h2 : (use_cache (save_cache [(u, resp.text)] : CacheFile String)).lookup u
      = some resp.text := by
    simp [use_cache, save_cache, List.lookup]
  have h3 := make_url_hit net u (save_cache [(u, resp.text)]) resp.text h2
  refine ⟨h1, ?_, ?_, h2, h3, ?_, ?_⟩ <;> simp [h1, h3, List.count_cons]

/-- C1 witness: concrete run with an empty (missing) cache file. -/
theorem fetchPage_idempotent_witness :
    make_url_request_using_cache (fun _ => some (HttpResponse.mk 200 "hello"))
        "https://www.nps.gov" CacheFile.missing
      = (Except.ok "hello", CacheFile.valid [("https://www.nps.gov", "hello")],
         [Event.fileRead, Event.netGet "https://www.nps.gov", Event.fileWrite])
    ∧ make_url_request_using_cache (fun _ => some (HttpResponse.mk 200 "hello"))
        "https://www.nps.gov" (CacheFile.valid [("https://www.nps.gov", "hello")])
      = (Except.ok "hello", CacheFile.valid [("https://www.nps.gov", "hello")],
         [Event.fileRead]) :=
  ⟨(fetchPage_idempotent (fun _ => some (HttpResponse.mk 200 "hello")) "https://www.nps.gov"
      CacheFile.missing (HttpResponse.mk 200 "hello") rfl rfl).1,
   (fetchPage_idempotent (fun _ => some (HttpResponse.mk 200 "hello")) "https://www.nps.gov"
      CacheFile.missing (HttpResponse.mk 200 "hello") rfl rfl).2.2.2.2.1⟩

/-- C9: on a miss, whenever `requests.get` returns any response at all, its
body text is stored under the url and persisted — the status code is never
inspected, so e.g. a 404 body is cached like any other — and the stored body
is then served from the cache (no network GET) on every subsequent call. -/
theorem any_response_cached (net : String → Option HttpResponse) (url : String)
    (file : CacheFile String) (resp : HttpResponse)
    (hmiss : (use_cache file).lookup url = none) (hnet : net url = some resp) :
    make_url_request_using_cache net url file
      = (Except.ok resp.text, save_cache (dictInsert (use_cache file) url resp.text),
         [Event.fileRead, Event.netGet url, Event.fileWrite])
    ∧ (use_cache (save_cache (dictInsert (use_cache file) url resp.text))).lookup url
      = some resp.text
    ∧ make_url_request_using_cache net url
        (save_cache (dictInsert (use_cache file) url resp.text))
      = (Except.ok resp.text, save_cache (dictInsert (use_cache file) url resp.text),
         [Event.fileRead]) := by
  have h2 : (use_cache (save_cache (dictInsert (use_cache file) url resp.text))).lookup url
      = some resp.text := by
    simp [use_cache, save_cache, lookup_dictInsert_self]
  exact ⟨make_url_miss_ok net url file resp hmiss hnet, h2,
    make_url_hit net url _ resp.text h2⟩

/-- C9 witness: a 404 response is stored, persisted and served thereafter. -/
theorem any_response_cached_witness :
    make_url_request_using_cache (fun _ => some (HttpResponse.mk 404 "Not Found")) "u"
        CacheFile.missing
      = (Except.ok "Not Found", CacheFile.valid [("u", "Not Found")],
         [Event.fileRead, Event.netGet "u", Event.fileWrite])
    ∧ make_url_request_using_cache (fun _ => some (HttpResponse.mk 404 "Not Found")) "u"
        (CacheFile.valid [("u", "Not Found")])
      = (Except.ok "Not Found", CacheFile.valid [("u", "Not Found")], [Event.fileRead]) :=
  ⟨(any_response_cached (fun _ => some (HttpResponse.mk 404 "Not Found")) "u"
      CacheFile.missing (HttpResponse.mk 404 "Not Found") rfl rfl).1,
   (any_response_cached (fun _ => some (HttpResponse.mk 404 "Not Found")) "u"
      CacheFile.missing (HttpResponse.mk 404 "Not Found") rfl rfl).2.2⟩

/-- C6: on a cache miss, a network failure propagates to the caller as an
error, the cache file is left unchanged and no write event occurs — for the
page fetcher and for the nearby-places fetcher alike, so the fetch is
retried on the next attempt. -/
theorem fetch_failure_not_cached (net : String → Option HttpResponse) (url : String)
    (file : CacheFile String)
    (hmiss : (use_cache file).lookup url = none) (hfail : net url = none)
    (apiKey : String) (net2 : String → List (String × String) → Option PlacesResponse)
    (site : NationalSite) (file2 : CacheFile PlacesResponse)
    (hmiss2 : (use_cache file2).lookup
        (construct_key radius_base_url (radiusParams apiKey site)) = none)
    (hfail2 : net2 radius_base_url (radiusParams apiKey site) = none) :
    make_url_request_using_cache net url file
      = (Except.error (), file, [Event.fileRead, Event.netGet url])
    ∧ (make_url_request_using_cache net url file).2.2.count Event.fileWrite = 0
    ∧ get_nearby_places apiKey net2 site file2
      = (Except.error (), file2, [Event.fileRead, Event.netGet radius_base_url])
    ∧ (get_nearby_places apiKey net2 site file2).2.2.count Event.fileWrite = 0 := by
  have h1 := make_url_miss_fail net url file hmiss hfail
  have h2 := get_nearby_miss_fail apiKey net2 site file2 hmiss2 hfail2
  refine ⟨h1, ?_, h2, ?_⟩ <;> simp [h1, h2, List.count_cons]

/-- C6 witness: concrete failing network on an empty cache, for both
fetchers. -/
theorem fetch_failure_not_cached_witness :
    make_url_request_using_cache (fun _ => none) "u" CacheFile.missing
      = (Except.error (), CacheFile.missing, [Event.fileRead, Event.netGet "u"])
    ∧ get_nearby_places "k" (fun _ _ => none)
        (NationalSite.mk "S" none none (some "49931") none) CacheFile.missing
      = (Except.error (), CacheFile.missing,
         [Event.fileRead, Event.netGet radius_base_url]) :=
  ⟨(fetch_failure_not_cached (fun _ => none) "u" CacheFile.missing rfl rfl "k"
      (fun _ _ => none) (NationalSite.mk "S" none none (some "49931") none)
      CacheFile.missing rfl rfl).1,
   (fetch_failure_not_cached (fun _ => none) "u" CacheFile.missing rfl rfl "k"
      (fun _ _ => none) (NationalSite.mk "S" none none (some "49931") none)
      CacheFile.missing rfl rfl).2.2.1⟩

/-- C4 counterexample: with a valid cache file already holding "u", two
consecutive cached fetches of "u" both read the backing file — the second
operation re-reads it mid-run and the combined run reads the file twice, not
at most once. -/
theorem cache_file_reread_counterexample :
    (make_url_request_using_cache (fun _ => some (HttpResponse.mk 200 "b2")) "u"
        ((make_url_request_using_cache (fun _ => some (HttpResponse.mk 200 "b2")) "u"
            (CacheFile.valid [("u", "b")])).2.1)).2.2.count Event.fileRead = 1
    ∧ ((make_url_request_using_cache (fun _ => some (HttpResponse.mk 200 "b2")) "u"
          (CacheFile.valid [("u", "b")])).2.2
        ++ (make_url_request_using_cache (fun _ => some (HttpResponse.mk 200 "b2")) "u"
            ((make_url_request_using_cache (fun _ => some (HttpResponse.mk 200 "b2")) "u"
                (CacheFile.valid [("u", "b")])).2.1)).2.2).count Event.fileRead = 2 := by
  constructor <;> rfl

/-- C4 amended: the cache file is re-read from disk on every cached-fetch
operation — each call to `make_url_request_using_cache` and each call to
`get_nearby_places` invokes `use_cache`, performing exactly one file read;
there is no process-wide in-memory snapshot, and each miss's save persists
the freshly read mapping plus the new write. -/
theorem cache_file_read_every_call (net : String → Option HttpResponse) (url : String)
    (file : CacheFile String) (apiKey : String)
    (net2 : String → List (String × String) → Option PlacesResponse)
    (site : NationalSite) (file2 : CacheFile PlacesResponse) :
    (make_url_request_using_cache net url file).2.2.count Event.fileRead = 1
    ∧ (get_nearby_places apiKey net2 site file2).2.2.count Event.fileRead = 1 := by
  constructor
  · rcases hl : (use_cache file).lookup url with _ | v
    · rcases hn : net url with _ | resp
      · rw [make_url_miss_fail net url file hl hn]
        simp [List.count_cons]
      · rw [make_url_miss_ok net url file resp hl hn]
        simp [List.count_cons]
    · rw [make_url_hit net url file v hl]
      simp [List.count_cons]
  · rcases hl : (use_cache file2).lookup
        (construct_key radius_base_url (radiusParams apiKey site)) with _ | v
    · rcases hn : net2 radius_base_url (radiusParams apiKey site) with _ | resp
      · rw [get_nearby_miss_fail apiKey net2 site file2 hl hn]
        simp [List.count_cons]
      · rw [get_nearby_miss_ok apiKey net2 site file2 resp hl hn]
        simp [List.count_cons]
    · rw [get_nearby_hit apiKey net2 site file2 v hl]
      simp [List.count_cons]

end NPS
